import Mathlib

/-!
Verification development for the Scenario ROI engine of a business
analytics backend.  The engine turns financial projection assumptions
into yearly cash-flow series, discounts them to NPV, solves for IRR by
damped Newton iteration, compares a scenario projection against a
baseline, and sweeps assumption grids.  The routines are shallowly
embedded here over exact rationals: a JavaScript number is idealised as
a rational, and a missing field (so that the numeric coercion of the
source applied to an absent value yields NaN) is modelled as
Option.none.  The external estimation fallback consulted by the
comparator when projections are missing is an outside collaborator; its
parsed response (or its absence) is passed to the embedded comparator
as an explicit argument.  A second, coarser model with explicit NaN and
Infinity values (JSNum) is used for the finiteness-safety property of
the IRR solver.
-/

namespace ExtraBrain

/-- A financial projection object as consumed by the engine.  Every
field is optional: none models an absent field. -/
structure Projection where
  EBITDA : Option ℚ
  NetIncome : Option ℚ
  initialInvestment : Option ℚ
  growthRate : Option ℚ
  terminalMultiple : Option ℚ

/-- A projection object with every field absent (the empty object
literal of the source). -/
def emptyProjection : Projection :=
  { EBITDA := none, NetIncome := none, initialInvestment := none,
    growthRate := none, terminalMultiple := none }

/-- The computeNPV helper of the source: the reduce over the series of
cf divided by the power of one plus rate at the index.  The
Array.isArray guard of the source always passes in this model, where
the input is a list. -/
def computeNPV (rate : ℚ) (cashflows : List ℚ) : ℚ :=
  (cashflows.enum.map (fun p => p.2 / (1 + rate) ^ p.1)).sum

/-- The npv accumulator of one computeIRR iteration, summed over the
series exactly as the inner loop of the source does. -/
def irrNPV (cashflows : List ℚ) (r : ℚ) : ℚ :=
  (cashflows.enum.map (fun p => p.2 / (1 + r) ^ p.1)).sum

/-- The dnpv accumulator of one computeIRR iteration: the analytic
derivative, accumulated only for indices t greater than 0. -/
def irrDNPV (cashflows : List ℚ) (r : ℚ) : ℚ :=
  (cashflows.enum.map (fun p =>
    if 0 < p.1 then (-(p.1 : ℚ) * p.2) / (1 + r) ^ (p.1 + 1) else 0)).sum

/-- The Newton update of one computeIRR iteration: newR is r minus npv
divided by dnpv, where a falsy dnpv (exact zero) is replaced by 1e-9
before dividing. -/
def irrStep (cashflows : List ℚ) (r : ℚ) : ℚ :=
  r - irrNPV cashflows r /
    (if irrDNPV cashflows r = 0 then 1 / 1000000000 else irrDNPV cashflows r)

/-- The iteration bound of the computeIRR loop of the source. -/
def irrMaxIter : Nat := 100

/-- The for loop of computeIRR, with the remaining iteration count as
fuel; exhausted fuel is the final return of the last iterate r.  The
early exit fires when the absolute update is below 1e-7, returning the
fresh newR; otherwise r is clamped from below at -0.99 and iteration
continues.  The non-finite check of the source on newR cannot fire in
this exact-rational model (every rational is finite) and is kept only
in the JSNum model below. -/
def irrNewtonLoop (cashflows : List ℚ) : Nat → ℚ → ℚ
  | 0, r => r
  | n + 1, r =>
    let newR := irrStep cashflows r
    if |newR - r| < 1 / 10000000 then newR
    else irrNewtonLoop cashflows n (max (-(99 / 100 : ℚ)) newR)

/-- The computeIRR routine of the source: Newton-Raphson from the
guess, capped at 100 iterations.  The source default for the guess is
0.1 and call sites of this file pass it explicitly. -/
def computeIRR (cashflows : List ℚ) (guess : ℚ) : ℚ :=
  irrNewtonLoop cashflows irrMaxIter guess

/-- One clamped Newton iteration, as applied when the loop neither
exits early nor runs out of fuel. -/
def irrClampedStep (cashflows : List ℚ) (r : ℚ) : ℚ :=
  max (-(99 / 100 : ℚ)) (irrStep cashflows r)

/-- Adding a value onto the last element of a list: the in-place
increment of the final entry by the terminal value in the source. -/
def addToLast : List ℚ → ℚ → List ℚ
  | [], _ => []
  | [x], v => [x + v]
  | x :: y :: xs, v => x :: addToLast (y :: xs) v

/-- The running free-cash-flow proxy of the source loop: f equals base
during year 1 and is multiplied by one plus growth at the top of each
later year, so this is the value of f during iteration t = i + 1. -/
def predragF (base growth : ℚ) : Nat → ℚ
  | 0 => base
  | i + 1 => predragF base growth i * (1 + growth)

/-- The buildCashflowsFromProjection routine of the source.  Field
coercions follow the source exactly: NetIncome and EBITDA are read
with the numeric coercion so an absent field is NaN (none);
growthRate, initialInvestment and terminalMultiple are read through
the JS or-operator, so an absent or zero growthRate becomes 0.03, an
absent initialInvestment becomes 0 and an absent or zero
terminalMultiple becomes 8.  A zero initialInvestment is unchanged by
its default.  The final value of the loop variable f is the pre-drag
flow of the last executed year, which for zero years is base itself;
truncated subtraction makes the same index work for both cases. -/
def buildCashflowsFromProjection (projection : Option Projection)
    (years : Nat) (capexPct nwcPct : ℚ) : List ℚ :=
  let ni := projection.bind (·.NetIncome)
  let ebitda := projection.bind (·.EBITDA)
  let base : ℚ :=
    match ni with
    | some q =>
        if 0 < q then q
        else match ebitda with | some e => e * (7 / 10) | none => 0
    | none => match ebitda with | some e => e * (7 / 10) | none => 0
  let growth : ℚ :=
    match projection.bind (·.growthRate) with
    | some q => if q = 0 then 3 / 100 else q
    | none => 3 / 100
  let flow0 : ℚ :=
    match projection.bind (·.initialInvestment) with
    | some q => q
    | none => 0
  let yearly : List ℚ := (List.range years).map (fun i =>
    let f := predragF base growth i
    f + (-|f * capexPct|) + (-|f * nwcPct|))
  let terminalGrowth := min growth (3 / 100)
  let multiple : ℚ :=
    match projection.bind (·.terminalMultiple) with
    | some q => if q = 0 then 8 else q
    | none => 8
  let terminal := predragF base growth (years - 1) * (1 + terminalGrowth) * multiple
  addToLast (flow0 :: yearly) terminal

/-- The roiProjections input of the comparator: four optional
projections plus the numeric coercion of the discountRate field (none
when it is absent or otherwise NaN). -/
structure ROIProjectionSet where
  baseline : Option Projection
  optimistic : Option Projection
  realistic : Option Projection
  pessimistic : Option Projection
  discountRate : Option ℚ

/-- A parsed response of the external estimation fallback, shaped like
the strict JSON the source requests; any field may still be absent in
a malformed response. -/
structure FilledProjections where
  baseline : Option Projection
  optimistic : Option Projection
  realistic : Option Projection
  pessimistic : Option Projection
  discountRate : Option ℚ

/-- The JS comparison of a coerced optional number against zero, as a
boolean: NaN compared with any number is false, so an absent value
yields false here. -/
def jsLeZero (o : Option ℚ) : Bool :=
  match o with
  | some q => if q ≤ 0 then true else false
  | none => false

/-- Whether one projection key triggers the estimation fallback: the
object is absent, or both its NetIncome and its EBITDA coerce to a
number that is at most 0 (an absent field, being NaN, does not
satisfy that comparison). -/
def needProj (o : Option Projection) : Bool :=
  match o with
  | none => true
  | some p => jsLeZero p.NetIncome && jsLeZero p.EBITDA

/-- The needsFill test of calculateScenarioROI, over the keys in
source order, or a non-finite discountRate. -/
def needsFill (rp : ROIProjectionSet) : Bool :=
  needProj rp.baseline || needProj rp.optimistic || needProj rp.realistic ||
    needProj rp.pessimistic || rp.discountRate.isNone

/-- Rounding to two decimal places: the composition of toFixed with
the numeric re-coercion in the source.  Ties round up, matching the
larger-n rule of toFixed. -/
def roundTo2 (x : ℚ) : ℚ :=
  ((round (x * 100) : ℤ) : ℚ) / 100

/-- The relative ROI percentage of the source: delta over the absolute
baseline NPV when the latter is above the 1e-6 threshold, otherwise
100 for a nonzero scenario NPV and 0 for a zero one. -/
def roiPercent (npvBaseline npvScenario : ℚ) : ℚ :=
  if 1 / 1000000 < |npvBaseline| then
    (npvScenario - npvBaseline) / |npvBaseline| * 100
  else if npvScenario ≠ 0 then 100 else 0

/-- The baseline part of the result record. -/
structure BaselineLeg where
  cashflows : List ℚ
  npv : ℚ

/-- The scenario part of the result record. -/
structure ScenarioLeg where
  cashflows : List ℚ
  npv : ℚ
  irr : ℚ

/-- The result record of calculateScenarioROI. -/
structure ScenarioROIResult where
  discountRate : ℚ
  horizonYears : Nat
  baseline : BaselineLeg
  scenario : ScenarioLeg
  deltaNPV : ℚ
  scenarioRoiPercent : ℚ

/-- The calculateScenarioROI routine of the source.  The external
estimation call is modelled by the fill argument, holding the parsed
response (none both when the call fails and when its output parses to
nothing).  When needsFill holds and a response is present, each absent
projection is taken from the response and a finite supplied
discountRate wins over the response (with 0.1 replacing a falsy
response rate); an unusable rate after that step falls back to 0.1.
The scenario projection is the first present of realistic, optimistic,
pessimistic.  Cash flows are built with the default capex and working
capital percentages 0.03 and 0.01, the scenario IRR with the default
guess 0.1. -/
def calculateScenarioROI (rp : ROIProjectionSet) (horizonYears : Nat)
    (fill : Option FilledProjections) : ScenarioROIResult :=
  let projections : ROIProjectionSet :=
    if needsFill rp then
      match fill with
      | some filled =>
        { baseline := rp.baseline.or filled.baseline
          optimistic := rp.optimistic.or filled.optimistic
          realistic := rp.realistic.or filled.realistic
          pessimistic := rp.pessimistic.or filled.pessimistic
          discountRate :=
            match rp.discountRate with
            | some q => some q
            | none => some (match filled.discountRate with
                            | some q => if q = 0 then 1 / 10 else q
                            | none => 1 / 10) }
      | none => rp
    else rp
  let rate : ℚ := match projections.discountRate with | some q => q | none => 1 / 10
  let baselineCF :=
    buildCashflowsFromProjection projections.baseline horizonYears (3 / 100) (1 / 100)
  let scenarioCF :=
    buildCashflowsFromProjection
      ((projections.realistic.or projections.optimistic).or projections.pessimistic)
      horizonYears (3 / 100) (1 / 100)
  let npvBaseline := computeNPV rate baselineCF
  let npvScenario := computeNPV rate scenarioCF
  { discountRate := rate
    horizonYears := horizonYears
    baseline := { cashflows := baselineCF, npv := npvBaseline }
    scenario := { cashflows := scenarioCF, npv := npvScenario,
                  irr := computeIRR scenarioCF (1 / 10) }
    deltaNPV := npvScenario - npvBaseline
    scenarioRoiPercent := roundTo2 (roiPercent npvBaseline npvScenario) }

/-- The five optional sweep lists of runSensitivityAnalysis. -/
structure Sweeps where
  discountRate : Option (List ℚ)
  growthRate : Option (List ℚ)
  terminalMultiple : Option (List ℚ)
  capexPct : Option (List ℚ)
  nwcPct : Option (List ℚ)

/-- The toList helper of runSensitivityAnalysis: a supplied nonempty
list is used as is, anything else becomes the one-element fallback
list.  The undefined-filter of the source is the identity here, since
swept values are numbers in this model. -/
def toList (arr : Option (List ℚ)) (fallback : ℚ) : List ℚ :=
  match arr with
  | some l => if l.isEmpty then [fallback] else l
  | none => [fallback]

/-- One row of the sensitivity grid. -/
structure SensitivityRow where
  discountRate : ℚ
  growthRate : ℚ
  terminalMultiple : ℚ
  capexPct : ℚ
  nwcPct : ℚ
  baselineNPV : ℚ
  scenarioNPV : ℚ
  deltaNPV : ℚ
  scenarioIRR : ℚ

/-- A projection set with every key absent, the fallback for an absent
baseProjections argument. -/
def emptyROIProjectionSet : ROIProjectionSet :=
  { baseline := none, optimistic := none, realistic := none,
    pessimistic := none, discountRate := none }

/-- The runSensitivityAnalysis routine of the source.  The scenario
projection is the first present of realistic, optimistic, pessimistic,
baseline, or the empty object.  Sweep fallbacks: the discountRate of
the projection set when finite else 0.1; the growthRate coerced from
the scenario projection when finite else 0.03; the terminalMultiple
likewise else 8; 0.03 for capexPct and 0.01 for nwcPct.  The nested
for loops push one row per combination, discount rate outermost; the
nested binds reproduce exactly that iteration order.  Inside a row the
baseline series uses the baseline projection (or the empty object)
unchanged, while the swept growth rate and terminal multiple are
spread into the scenario projection; the scenario IRR uses the default
guess 0.1. -/
def runSensitivityAnalysis (baseProjections : Option ROIProjectionSet)
    (horizonYears : Nat) (sweeps : Sweeps) : List SensitivityRow :=
  let bp := baseProjections.getD emptyROIProjectionSet
  let scenarioProj : Projection :=
    (((bp.realistic.or bp.optimistic).or bp.pessimistic).or bp.baseline).getD
      emptyProjection
  let rates := toList sweeps.discountRate
    (match bp.discountRate with | some q => q | none => 1 / 10)
  let growths := toList sweeps.growthRate
    (match scenarioProj.growthRate with | some q => q | none => 3 / 100)
  let multiples := toList sweeps.terminalMultiple
    (match scenarioProj.terminalMultiple with | some q => q | none => 8)
  let capexes := toList sweeps.capexPct (3 / 100)
  let nwcs := toList sweeps.nwcPct (1 / 100)
  rates.flatMap (fun r =>
    growths.flatMap (fun g =>
      multiples.flatMap (fun m =>
        capexes.flatMap (fun c =>
          nwcs.map (fun w =>
            let baseCF := buildCashflowsFromProjection
              (some (bp.baseline.getD emptyProjection)) horizonYears c w
            let scenCF := buildCashflowsFromProjection
              (some { scenarioProj with growthRate := some g, terminalMultiple := some m })
              horizonYears c w
            let npvBase := computeNPV r baseCF
            let npvScen := computeNPV r scenCF
            { discountRate := r
              growthRate := g
              terminalMultiple := m
              capexPct := c
              nwcPct := w
              baselineNPV := npvBase
              scenarioNPV := npvScen
              deltaNPV := npvScen - npvBase
              scenarioIRR := computeIRR scenCF (1 / 10) })))))

/-- A JavaScript double idealised as an exact rational extended with
the three special values NaN, positive Infinity and negative Infinity.
Exact finite arithmetic never overflows in this model; the special
values propagate through the operations with JS semantics. -/
inductive JSNum where
  | fin : ℚ → JSNum
  | nan : JSNum
  | inf : JSNum
  | ninf : JSNum
deriving DecidableEq

namespace JSNum

/-- JS addition: NaN propagates, opposite infinities give NaN. -/
def add : JSNum → JSNum → JSNum
  | nan, _ => nan
  | _, nan => nan
  | inf, ninf => nan
  | ninf, inf => nan
  | inf, _ => inf
  | _, inf => inf
  | ninf, _ => ninf
  | _, ninf => ninf
  | fin a, fin b => fin (a + b)

/-- JS negation. -/
def neg : JSNum → JSNum
  | nan => nan
  | inf => ninf
  | ninf => inf
  | fin a => fin (-a)

/-- JS subtraction. -/
def sub (a b : JSNum) : JSNum := add a (neg b)

/-- JS division: NaN propagates; a finite value over exact zero gives
a signed infinity by the sign of the numerator and NaN for zero over
zero; a finite value over an infinity gives zero; infinity over
infinity gives NaN. -/
def div : JSNum → JSNum → JSNum
  | nan, _ => nan
  | _, nan => nan
  | fin a, fin b =>
      if b = 0 then (if a = 0 then nan else if 0 < a then inf else ninf)
      else fin (a / b)
  | fin _, inf => fin 0
  | fin _, ninf => fin 0
  | inf, fin b => if 0 ≤ b then inf else ninf
  | ninf, fin b => if 0 ≤ b then ninf else inf
  | inf, inf => nan
  | inf, ninf => nan
  | ninf, inf => nan
  | ninf, ninf => nan

/-- JS multiplication: NaN propagates, infinity times zero is NaN. -/
def mul : JSNum → JSNum → JSNum
  | nan, _ => nan
  | _, nan => nan
  | fin a, fin b => fin (a * b)
  | inf, fin b => if b = 0 then nan else if 0 < b then inf else ninf
  | ninf, fin b => if b = 0 then nan else if 0 < b then ninf else inf
  | fin a, inf => if a = 0 then nan else if 0 < a then inf else ninf
  | fin a, ninf => if a = 0 then nan else if 0 < a then ninf else inf
  | inf, inf => inf
  | inf, ninf => ninf
  | ninf, inf => ninf
  | ninf, ninf => inf

/-- JS exponentiation with a natural exponent, as the loop uses it: a
zero exponent gives 1 for every base, even NaN. -/
def powNat : JSNum → Nat → JSNum
  | fin q, k => fin (q ^ k)
  | _, 0 => fin 1
  | nan, _ + 1 => nan
  | inf, _ + 1 => inf
  | ninf, k + 1 => if (k + 1) % 2 = 0 then inf else ninf

/-- JS absolute value. -/
def abs : JSNum → JSNum
  | nan => nan
  | inf => inf
  | ninf => inf
  | fin a => fin |a|

/-- The JS strict less-than as a boolean: any comparison with NaN is
false. -/
def ltb : JSNum → JSNum → Bool
  | nan, _ => false
  | _, nan => false
  | ninf, ninf => false
  | ninf, _ => true
  | _, ninf => false
  | inf, _ => false
  | fin _, inf => true
  | fin a, fin b => if a < b then true else false

/-- The two-argument JS max: NaN poisons, otherwise the larger value. -/
def maxJS : JSNum → JSNum → JSNum
  | nan, _ => nan
  | _, nan => nan
  | inf, _ => inf
  | _, inf => inf
  | ninf, b => b
  | a, ninf => a
  | fin a, fin b => fin (max a b)

/-- JS truthiness of a number: exact zero and NaN are falsy. -/
def truthy : JSNum → Bool
  | fin q => if q = 0 then false else true
  | nan => false
  | inf => true
  | ninf => true

/-- Finiteness predicate of a modelled JS number. -/
def isFinite : JSNum → Bool
  | fin _ => true
  | _ => false

end JSNum

/-- The computeIRR loop in the JSNum model, keeping every guard of the
source: the falsy test on dnpv before the division, the early break
returning the current r when newR is not finite, the early return of
newR on convergence, and the clamp at -0.99. -/
def irrLoopJS (cashflows : List JSNum) : Nat → JSNum → JSNum
  | 0, r => r
  | n + 1, r =>
    let onePlusR := JSNum.add (JSNum.fin 1) r
    let npv := cashflows.enum.foldl
      (fun acc p => JSNum.add acc (JSNum.div p.2 (JSNum.powNat onePlusR p.1)))
      (JSNum.fin 0)
    let dnpv := cashflows.enum.foldl
      (fun acc p =>
        if 0 < p.1 then
          JSNum.add acc (JSNum.div (JSNum.mul (JSNum.fin (-(p.1 : ℚ))) p.2)
            (JSNum.powNat onePlusR (p.1 + 1)))
        else acc)
      (JSNum.fin 0)
    let newR := JSNum.sub r
      (JSNum.div npv (if JSNum.truthy dnpv then dnpv else JSNum.fin (1 / 1000000000)))
    if JSNum.isFinite newR = false then r
    else if JSNum.ltb (JSNum.abs (JSNum.sub newR r)) (JSNum.fin (1 / 10000000)) then newR
    else irrLoopJS cashflows n (JSNum.maxJS (JSNum.fin (-(99 / 100))) newR)

/-- The computeIRR routine in the JSNum model. -/
def computeIRRJS (cashflows : List JSNum) (guess : JSNum) : JSNum :=
  irrLoopJS cashflows irrMaxIter guess

end ExtraBrain

namespace ExtraBrain

/-- Unfolding equation for one iteration of the Newton loop. -/
theorem irrNewtonLoop_succ (cashflows : List ℚ) (n : Nat) (r : ℚ) :
    irrNewtonLoop cashflows (n + 1) r =
      if |irrStep cashflows r - r| < 1 / 10000000 then irrStep cashflows r
      else irrNewtonLoop cashflows n (irrClampedStep cashflows r) := rfl

/-- Closed form of the pre-drag flow recurrence. -/
theorem predragF_eq (base growth : ℚ) (i : Nat) :
    predragF base growth i = base * (1 + growth) ^ i := by
  induction i with
  | zero => simp [predragF]
  | succ k ih => rw [predragF, ih, pow_succ]; ring

/-- Adding zero onto the last element changes nothing. -/
theorem addToLast_zero (l : List ℚ) : addToLast l 0 = l := by
  induction l with
  | nil => rfl
  | cons x xs ih =>
      cases xs with
      | nil => simp [addToLast]
      | cons y ys => rw [addToLast, ih]

/-- Entries strictly before the last one are unchanged by addToLast. -/
theorem addToLast_getD (l : List ℚ) (v : ℚ) (i : Nat) (h : i + 1 < l.length) :
    (addToLast l v).getD i 0 = l.getD i 0 := by
  induction l generalizing i with
  | nil => rfl
  | cons x xs ih =>
      cases xs with
      | nil => simp at h
      | cons y ys =>
          rw [addToLast]
          cases i with
          | zero => rfl
          | succ j =>
              rw [List.getD_cons_succ, List.getD_cons_succ]
              exact ih j (by simpa using h)

/-- The NPV of an all-zero series is zero for every rate. -/
theorem computeNPV_eq_zero (rate : ℚ) (l : List ℚ) (h : ∀ x ∈ l, x = 0) :
    computeNPV rate l = 0 := by
  unfold computeNPV
  refine List.sum_eq_zero (fun x hx => ?_)
  obtain ⟨p, hp, rfl⟩ := List.mem_map.1 hx
  have h2 : p.2 ∈ l := by
    have := List.mem_map_of_mem Prod.snd hp
    rwa [List.enum_map_snd] at this
  rw [h p.2 h2, zero_div]

/-- The Newton accumulators vanish on an all-zero series. -/
theorem irrNPV_eq_zero (cashflows : List ℚ) (r : ℚ) (h : ∀ x ∈ cashflows, x = 0) :
    irrNPV cashflows r = 0 := by
  unfold irrNPV
  refine List.sum_eq_zero (fun x hx => ?_)
  obtain ⟨p, hp, rfl⟩ := List.mem_map.1 hx
  have h2 : p.2 ∈ cashflows := by
    have := List.mem_map_of_mem Prod.snd hp
    rwa [List.enum_map_snd] at this
  rw [h p.2 h2, zero_div]

/-- The derivative accumulator vanishes on an all-zero series. -/
theorem irrDNPV_eq_zero (cashflows : List ℚ) (r : ℚ) (h : ∀ x ∈ cashflows, x = 0) :
    irrDNPV cashflows r = 0 := by
  unfold irrDNPV
  refine List.sum_eq_zero (fun x hx => ?_)
  obtain ⟨p, hp, rfl⟩ := List.mem_map.1 hx
  have h2 : p.2 ∈ cashflows := by
    have := List.mem_map_of_mem Prod.snd hp
    rwa [List.enum_map_snd] at this
  rw [h p.2 h2]
  simp

/-- On an all-zero series the Newton update is the identity. -/
theorem irrStep_eq_self (cashflows : List ℚ) (r : ℚ) (h : ∀ x ∈ cashflows, x = 0) :
    irrStep cashflows r = r := by
  rw [irrStep, irrNPV_eq_zero cashflows r h, irrDNPV_eq_zero cashflows r h]
  norm_num

/-- On an all-zero series the solver converges immediately to the
guess. -/
theorem computeIRR_zero_flows (cashflows : List ℚ) (guess : ℚ)
    (h : ∀ x ∈ cashflows, x = 0) : computeIRR cashflows guess = guess := by
  rw [computeIRR, irrMaxIter, show (100 : Nat) = 99 + 1 from rfl, irrNewtonLoop_succ,
    irrStep_eq_self cashflows guess h]
  norm_num

/-- An absent projection builds a series of zeros after the zero
initial investment. -/
theorem buildCashflows_none (years : Nat) (capexPct nwcPct : ℚ) :
    buildCashflowsFromProjection none years capexPct nwcPct =
      0 :: List.replicate years 0 := by
  unfold buildCashflowsFromProjection
  simp only [Option.none_bind]
  have hmap : (List.range years).map (fun i =>
      let f := predragF 0 (3 / 100) i
      f + (-|f * capexPct|) + (-|f * nwcPct|)) = List.replicate years 0 := by
    rw [List.eq_replicate_iff]
    refine ⟨by simp, fun b hb => ?_⟩
    obtain ⟨i, _, rfl⟩ := List.mem_map.1 hb
    simp [predragF_eq]
  rw [hmap, predragF_eq]
  norm_num [addToLast_zero]

end ExtraBrain

namespace ExtraBrain

/-- Rounding a whole hundred is the identity on 100. -/
theorem roundTo2_hundred : roundTo2 100 = 100 := by
  rw [roundTo2, show (100 : ℚ) * 100 = ((10000 : ℤ) : ℚ) by norm_num, round_intCast]
  norm_num

/-- Rounding zero gives zero. -/
theorem roundTo2_zero : roundTo2 0 = 0 := by
  rw [roundTo2, show (0 : ℚ) * 100 = ((0 : ℤ) : ℚ) by norm_num, round_intCast]
  norm_num

/-- The rounded ROI percentage, written with the rounding pushed into
the branches of the threshold test. -/
theorem roundTo2_roiPercent (b s : ℚ) :
    roundTo2 (roiPercent b s) =
      if 1 / 1000000 < |b| then roundTo2 (100 * (s - b) / |b|)
      else if s ≠ 0 then (100 : ℚ) else 0 := by
  unfold roiPercent
  split_ifs with h1 h2
  · exact congrArg roundTo2 (by ring)
  · exact roundTo2_hundred
  · exact roundTo2_zero

/-- The sum of a constant natural map is the length times the
constant. -/
theorem sum_map_constNat {α : Type} (l : List α) (k : Nat) :
    (l.map (fun _ => k)).sum = l.length * k := by
  induction l with
  | nil => simp
  | cons x xs ih => simp [ih, Nat.succ_mul, Nat.add_comm]

/-- When the convergence test fails along the whole orbit, the Newton
loop is exactly the n-fold clamped iteration. -/
theorem irrNewtonLoop_eq_iterate (cashflows : List ℚ) (n : Nat) (r : ℚ)
    (h : ∀ k < n, ¬ (|irrStep cashflows ((irrClampedStep cashflows)^[k] r) -
        (irrClampedStep cashflows)^[k] r| < 1 / 10000000)) :
    irrNewtonLoop cashflows n r = (irrClampedStep cashflows)^[n] r := by
  induction n generalizing r with
  | zero => rfl
  | succ m ih =>
      rw [irrNewtonLoop_succ, if_neg (by simpa using h 0 (Nat.succ_pos m))]
      rw [ih (irrClampedStep cashflows r) (fun k hk => by
        have hk1 := h (k + 1) (by omega)
        rwa [Function.iterate_succ_apply] at hk1)]
      rw [← Function.iterate_succ_apply]

/-- A finite value clamped from below by a finite constant stays
finite. -/
theorem maxJS_fin_finite (c : ℚ) (x : JSNum) (hx : x.isFinite = true) :
    (JSNum.maxJS (JSNum.fin c) x).isFinite = true := by
  cases x <;> simp_all [JSNum.maxJS, JSNum.isFinite]

/-- Unfolding equation for one iteration of the JSNum loop. -/
theorem irrLoopJS_succ (cashflows : List JSNum) (n : Nat) (r : JSNum) :
    irrLoopJS cashflows (n + 1) r =
      (let onePlusR := JSNum.add (JSNum.fin 1) r
       let npv := cashflows.enum.foldl
         (fun acc p => JSNum.add acc (JSNum.div p.2 (JSNum.powNat onePlusR p.1)))
         (JSNum.fin 0)
       let dnpv := cashflows.enum.foldl
         (fun acc p =>
           if 0 < p.1 then
             JSNum.add acc (JSNum.div (JSNum.mul (JSNum.fin (-(p.1 : ℚ))) p.2)
               (JSNum.powNat onePlusR (p.1 + 1)))
           else acc)
         (JSNum.fin 0)
       let newR := JSNum.sub r
         (JSNum.div npv (if JSNum.truthy dnpv then dnpv else JSNum.fin (1 / 1000000000)))
       if JSNum.isFinite newR = false then r
       else if JSNum.ltb (JSNum.abs (JSNum.sub newR r)) (JSNum.fin (1 / 10000000)) then newR
       else irrLoopJS cashflows n (JSNum.maxJS (JSNum.fin (-(99 / 100))) newR)) := rfl

/-- The exit branches of one JSNum iteration preserve finiteness for
an arbitrary update value: the first guard returns the finite current
iterate, the second returns a value that passed the finiteness guard,
and the third recurses on the clamped value. -/
theorem irrLoopJS_branch_finite (cashflows : List JSNum) (m : Nat) (r newR : JSNum)
    (hr : r.isFinite = true)
    (ih : ∀ s : JSNum, s.isFinite = true → (irrLoopJS cashflows m s).isFinite = true) :
    (if newR.isFinite = false then r
     else if (newR.sub r).abs.ltb (JSNum.fin (1 / 10000000)) then newR
     else irrLoopJS cashflows m ((JSNum.fin (-(99 / 100))).maxJS newR)).isFinite = true := by
  split_ifs with h1 h2
  · exact hr
  · simpa using h1
  · exact ih _ (maxJS_fin_finite _ _ (by simpa using h1))

/-- The JSNum loop preserves finiteness of the iterate: every exit
path returns either the finite current iterate or a fresh value that
passed the finiteness guard. -/
theorem irrLoopJS_finite (cashflows : List JSNum) (n : Nat) (r : JSNum)
    (hr : r.isFinite = true) : (irrLoopJS cashflows n r).isFinite = true := by
  induction n generalizing r with
  | zero => exact hr
  | succ m ih =>
      rw [irrLoopJS_succ]
      dsimp only
      exact irrLoopJS_branch_finite cashflows m r _ hr ih

end ExtraBrain

namespace ExtraBrain

/-- Claim C4: on the two-element series of minus 100 then 130 with the
default initial guess 0.1, the IRR solver converges and returns a
value within 1e-6 of 0.30. -/
theorem C4_irrConvergesOnSinglePeriod :
    |computeIRR [-100, 130] (1 / 10) - 3 / 10| < 1 / 1000000 := by
  have e1 : irrClampedStep [-100, 130] (1 / 10) = 7 / 26 := by
    norm_num [irrClampedStep, irrStep, irrNPV, irrDNPV, List.enum, List.enumFrom]
  have c1 : ¬ (|irrStep [-100, 130] (1 / 10) - 1 / 10| < 1 / 10000000) := by
    norm_num [abs_lt, irrStep, irrNPV, irrDNPV, List.enum, List.enumFrom]
  have e2 : irrClampedStep [-100, 130] (7 / 26) = 1315 / 4394 := by
    norm_num [irrClampedStep, irrStep, irrNPV, irrDNPV, List.enum, List.enumFrom]
  have c2 : ¬ (|irrStep [-100, 130] (7 / 26) - 7 / 26| < 1 / 10000000) := by
    norm_num [abs_lt, irrStep, irrNPV, irrDNPV, List.enum, List.enumFrom]
  have e3 : irrClampedStep [-100, 130] (1315 / 4394) = 37649059 / 125497034 := by
    norm_num [irrClampedStep, irrStep, irrNPV, irrDNPV, List.enum, List.enumFrom]
  have c3 : ¬ (|irrStep [-100, 130] (1315 / 4394) - 1315 / 4394| < 1 / 10000000) := by
    norm_num [abs_lt, irrStep, irrNPV, irrDNPV, List.enum, List.enumFrom]
  have e4 : irrClampedStep [-100, 130] (37649059 / 125497034)
      = 30711535808441347 / 102371786028181514 := by
    norm_num [irrClampedStep, irrStep, irrNPV, irrDNPV, List.enum, List.enumFrom]
  have c4 : ¬ (|irrStep [-100, 130] (37649059 / 125497034) - 37649059 / 125497034|
      < 1 / 10000000) := by
    norm_num [abs_lt, irrStep, irrNPV, irrDNPV, List.enum, List.enumFrom]
  have c5 : |irrStep [-100, 130] (30711535808441347 / 102371786028181514)
      - 30711535808441347 / 102371786028181514| < 1 / 10000000 := by
    norm_num [abs_lt, irrStep, irrNPV, irrDNPV, List.enum, List.enumFrom]
  rw [computeIRR, irrMaxIter]
  rw [show (100 : Nat) = 99 + 1 from rfl, irrNewtonLoop_succ, if_neg c1, e1]
  rw [show (99 : Nat) = 98 + 1 from rfl, irrNewtonLoop_succ, if_neg c2, e2]
  rw [show (98 : Nat) = 97 + 1 from rfl, irrNewtonLoop_succ, if_neg c3, e3]
  rw [show (97 : Nat) = 96 + 1 from rfl, irrNewtonLoop_succ, if_neg c4, e4]
  rw [show (96 : Nat) = 95 + 1 from rfl, irrNewtonLoop_succ, if_pos c5]
  norm_num [abs_lt, irrStep, irrNPV, irrDNPV, List.enum, List.enumFrom]

/-- Claim C5: for every cash-flow series and every initial guess the
IRR solver terminates within the 100-iteration cap, and if the
convergence test never passes along the orbit it returns the last
iterate, namely the 100-fold clamped Newton iterate of the guess,
instead of failing. -/
theorem C5_iterationCapReturnsLastIterate (cashflows : List ℚ) (guess : ℚ)
    (h : ∀ k < irrMaxIter,
      ¬ (|irrStep cashflows ((irrClampedStep cashflows)^[k] guess) -
          (irrClampedStep cashflows)^[k] guess| < 1 / 10000000)) :
    computeIRR cashflows guess = (irrClampedStep cashflows)^[irrMaxIter] guess := by
  rw [computeIRR]
  exact irrNewtonLoop_eq_iterate cashflows irrMaxIter guess h

/-- Witness for claim C5: on the one-element series 1 the Newton
update always jumps by a billion, so the convergence test never
passes and the solver returns the capped iterate. -/
theorem C5_iterationCapReturnsLastIterate_witness :
    (∀ k < irrMaxIter,
      ¬ (|irrStep [1] ((irrClampedStep [1])^[k] 0) -
          (irrClampedStep [1])^[k] 0| < 1 / 10000000)) ∧
    computeIRR [1] 0 = (irrClampedStep [1])^[irrMaxIter] 0 := by
  have key : ∀ r : ℚ, irrStep [1] r = r - 1000000000 := by
    intro r
    norm_num [irrStep, irrNPV, irrDNPV, List.enum, List.enumFrom]
  have hyp : ∀ k < irrMaxIter,
      ¬ (|irrStep [1] ((irrClampedStep [1])^[k] 0) -
          (irrClampedStep [1])^[k] 0| < 1 / 10000000) := by
    intro k _
    rw [key, sub_sub_cancel_left]
    norm_num
  exact ⟨hyp, C5_iterationCapReturnsLastIterate [1] 0 hyp⟩

/-- Claim C10: in the JSNum model of the solver, a series of finite
entries and a finite guess always produce a finite result: the zero
derivative is replaced by 1e-9 before dividing, a non-finite update
stops the iteration returning the previous finite iterate, and each
accepted iterate passes through the clamp at -0.99 which preserves
finiteness. -/
theorem C10_irrFiniteSafety (cashflows : List JSNum) (guess : JSNum)
    (hcf : ∀ x ∈ cashflows, x.isFinite = true) (hg : guess.isFinite = true) :
    (computeIRRJS cashflows guess).isFinite = true := by
  rw [computeIRRJS]
  exact irrLoopJS_finite cashflows irrMaxIter guess hg

/-- Witness for claim C10 at the concrete series of the single finite
entry 1 and the finite guess 0. -/
theorem C10_irrFiniteSafety_witness :
    (∀ x ∈ [JSNum.fin 1], x.isFinite = true) ∧
    (JSNum.fin 0).isFinite = true ∧
    (computeIRRJS [JSNum.fin 1] (JSNum.fin 0)).isFinite = true := by
  refine ⟨by simp [JSNum.isFinite], rfl, ?_⟩
  exact C10_irrFiniteSafety [JSNum.fin 1] (JSNum.fin 0) (by simp [JSNum.isFinite]) rfl

end ExtraBrain

namespace ExtraBrain

/-- Claim C2: every returned result satisfies deltaNPV equal to the
scenario NPV minus the baseline NPV, and the rounded ROI percentage
equals 100 times deltaNPV over the absolute baseline NPV rounded to
two decimals when the absolute baseline NPV exceeds the 1e-6
threshold, and otherwise 100 for a nonzero scenario NPV and 0 for a
zero one. -/
theorem C2_resultInvariant (rp : ROIProjectionSet) (horizonYears : Nat)
    (fill : Option FilledProjections) :
    (calculateScenarioROI rp horizonYears fill).deltaNPV =
      (calculateScenarioROI rp horizonYears fill).scenario.npv -
        (calculateScenarioROI rp horizonYears fill).baseline.npv ∧
    (calculateScenarioROI rp horizonYears fill).scenarioRoiPercent =
      (if 1 / 1000000 < |(calculateScenarioROI rp horizonYears fill).baseline.npv| then
        roundTo2 (100 * (calculateScenarioROI rp horizonYears fill).deltaNPV /
          |(calculateScenarioROI rp horizonYears fill).baseline.npv|)
      else if (calculateScenarioROI rp horizonYears fill).scenario.npv ≠ 0 then 100
      else 0) := by
  exact ⟨rfl, roundTo2_roiPercent _ _⟩

/-- Claim C1 (counterexample): on a projection set with nothing
resolvable and no usable fallback response, the comparator does not
signal a failure: it resolves with a fabricated numeric result whose
series are all zeros, whose NPVs, delta and ROI percentage are 0 and
whose rate is the 0.1 default. -/
theorem C1_noFailureSignal_counterexample :
    (calculateScenarioROI emptyROIProjectionSet 5 none).baseline.cashflows
      = [0, 0, 0, 0, 0, 0] ∧
    (calculateScenarioROI emptyROIProjectionSet 5 none).scenario.cashflows
      = [0, 0, 0, 0, 0, 0] ∧
    (calculateScenarioROI emptyROIProjectionSet 5 none).baseline.npv = 0 ∧
    (calculateScenarioROI emptyROIProjectionSet 5 none).scenario.npv = 0 ∧
    (calculateScenarioROI emptyROIProjectionSet 5 none).deltaNPV = 0 ∧
    (calculateScenarioROI emptyROIProjectionSet 5 none).scenarioRoiPercent = 0 ∧
    (calculateScenarioROI emptyROIProjectionSet 5 none).discountRate = 1 / 10 := by
  have hzero : ∀ x ∈ ((0 : ℚ) :: List.replicate 5 0), x = 0 := by
    intro x hx
    rcases List.mem_cons.1 hx with h | h
    · exact h
    · exact List.eq_of_mem_replicate h
  have hb : buildCashflowsFromProjection (none : Option Projection) 5 (3 / 100) (1 / 100)
      = 0 :: List.replicate 5 0 := buildCashflows_none 5 _ _
  have hrep : ((0 : ℚ) :: List.replicate 5 0) = [0, 0, 0, 0, 0, 0] := rfl
  have hnpv : computeNPV (1 / 10)
      (buildCashflowsFromProjection (none : Option Projection) 5 (3 / 100) (1 / 100)) = 0 := by
    rw [hb]; exact computeNPV_eq_zero _ _ hzero
  have hroi : roundTo2 (roiPercent 0 0) = 0 := by
    rw [roiPercent]
    norm_num [roundTo2_zero]
  have hnpv2 : computeNPV (1 / 10) [0, 0, 0, 0, 0, 0] = 0 :=
    computeNPV_eq_zero _ _ (fun x hx => by simpa using hx)
  simp only [calculateScenarioROI, emptyROIProjectionSet, needsFill, needProj,
    Option.isNone_none, Bool.or_true, if_true, Option.none_or, Option.or_none,
    hb, hrep, hnpv, hnpv2, hroi, sub_zero]
  norm_num [hroi]

/-- Claim C1 (amended): for every horizon, a projection set with
nothing resolvable and no usable fallback response yields a degenerate
all-zero result (zero NPVs, zero delta, zero ROI percentage, the 0.1
default rate, and an IRR equal to the default guess) instead of an
explicit failure. -/
theorem C1_noProjectionData_degenerateResult (horizonYears : Nat) :
    (calculateScenarioROI emptyROIProjectionSet horizonYears none).baseline.npv = 0 ∧
    (calculateScenarioROI emptyROIProjectionSet horizonYears none).scenario.npv = 0 ∧
    (calculateScenarioROI emptyROIProjectionSet horizonYears none).deltaNPV = 0 ∧
    (calculateScenarioROI emptyROIProjectionSet horizonYears none).scenarioRoiPercent = 0 ∧
    (calculateScenarioROI emptyROIProjectionSet horizonYears none).scenario.irr = 1 / 10 ∧
    (calculateScenarioROI emptyROIProjectionSet horizonYears none).discountRate = 1 / 10 := by
  have hzero : ∀ x ∈ ((0 : ℚ) :: List.replicate horizonYears 0), x = 0 := by
    intro x hx
    rcases List.mem_cons.1 hx with h | h
    · exact h
    · exact List.eq_of_mem_replicate h
  have hb : buildCashflowsFromProjection (none : Option Projection) horizonYears
      (3 / 100) (1 / 100) = 0 :: List.replicate horizonYears 0 :=
    buildCashflows_none horizonYears _ _
  have hnpv : computeNPV (1 / 10)
      (buildCashflowsFromProjection (none : Option Projection) horizonYears
        (3 / 100) (1 / 100)) = 0 := by
    rw [hb]; exact computeNPV_eq_zero _ _ hzero
  have hirr : computeIRR
      (buildCashflowsFromProjection (none : Option Projection) horizonYears
        (3 / 100) (1 / 100)) (1 / 10) = 1 / 10 := by
    rw [hb]; exact computeIRR_zero_flows _ _ hzero
  have hroi : roundTo2 (roiPercent 0 0) = 0 := by
    rw [roiPercent]
    norm_num [roundTo2_zero]
  simp only [calculateScenarioROI, emptyROIProjectionSet, needsFill, needProj,
    Option.isNone_none, Bool.or_true, if_true, Option.none_or, Option.or_none,
    hnpv, hirr, hroi, sub_zero]
  norm_num [hroi]

/-- Claim C9 (counterexample): when the projection set needs the
estimation fallback (here because the discount rate is absent), two
runs with identical projection set and horizon but different fallback
responses return different results, so the output is not a function of
the projection set and horizon alone. -/
theorem C9_fillDependence_counterexample :
    (calculateScenarioROI
      { baseline := some { emptyProjection with NetIncome := some 100 }
        optimistic := some { emptyProjection with NetIncome := some 100 }
        realistic := some { emptyProjection with NetIncome := some 100 }
        pessimistic := some { emptyProjection with NetIncome := some 100 }
        discountRate := none } 5
      (some { baseline := none, optimistic := none, realistic := none,
              pessimistic := none, discountRate := some (1 / 5) })).discountRate
      = 1 / 5 ∧
    (calculateScenarioROI
      { baseline := some { emptyProjection with NetIncome := some 100 }
        optimistic := some { emptyProjection with NetIncome := some 100 }
        realistic := some { emptyProjection with NetIncome := some 100 }
        pessimistic := some { emptyProjection with NetIncome := some 100 }
        discountRate := none } 5
      (some { baseline := none, optimistic := none, realistic := none,
              pessimistic := none, discountRate := some (3 / 10) })).discountRate
      = 3 / 10 ∧
    calculateScenarioROI
      { baseline := some { emptyProjection with NetIncome := some 100 }
        optimistic := some { emptyProjection with NetIncome := some 100 }
        realistic := some { emptyProjection with NetIncome := some 100 }
        pessimistic := some { emptyProjection with NetIncome := some 100 }
        discountRate := none } 5
      (some { baseline := none, optimistic := none, realistic := none,
              pessimistic := none, discountRate := some (1 / 5) }) ≠
    calculateScenarioROI
      { baseline := some { emptyProjection with NetIncome := some 100 }
        optimistic := some { emptyProjection with NetIncome := some 100 }
        realistic := some { emptyProjection with NetIncome := some 100 }
        pessimistic := some { emptyProjection with NetIncome := some 100 }
        discountRate := none } 5
      (some { baseline := none, optimistic := none, realistic := none,
              pessimistic := none, discountRate := some (3 / 10) }) := by
  have h1 : (calculateScenarioROI
      { baseline := some { emptyProjection with NetIncome := some 100 }
        optimistic := some { emptyProjection with NetIncome := some 100 }
        realistic := some { emptyProjection with NetIncome := some 100 }
        pessimistic := some { emptyProjection with NetIncome := some 100 }
        discountRate := none } 5
      (some { baseline := none, optimistic := none, realistic := none,
              pessimistic := none, discountRate := some (1 / 5) })).discountRate
      = 1 / 5 := by
    norm_num [calculateScenarioROI, needsFill, needProj, jsLeZero, emptyProjection]
  have h2 : (calculateScenarioROI
      { baseline := some { emptyProjection with NetIncome := some 100 }
        optimistic := some { emptyProjection with NetIncome := some 100 }
        realistic := some { emptyProjection with NetIncome := some 100 }
        pessimistic := some { emptyProjection with NetIncome := some 100 }
        discountRate := none } 5
      (some { baseline := none, optimistic := none, realistic := none,
              pessimistic := none, discountRate := some (3 / 10) })).discountRate
      = 3 / 10 := by
    norm_num [calculateScenarioROI, needsFill, needProj, jsLeZero, emptyProjection]
  refine ⟨h1, h2, fun heq => ?_⟩
  have hd := congrArg ScenarioROIResult.discountRate heq
  rw [h1, h2] at hd
  norm_num at hd

/-- Claim C9 (amended): when the projection set does not trigger the
estimation fallback, the comparator is a pure function of the
projection set and the horizon: the fallback response argument cannot
influence the result. -/
theorem C9_deterministicWithoutFill (rp : ROIProjectionSet) (horizonYears : Nat)
    (fill1 fill2 : Option FilledProjections) (h : needsFill rp = false) :
    calculateScenarioROI rp horizonYears fill1 =
      calculateScenarioROI rp horizonYears fill2 := by
  simp only [calculateScenarioROI, h, Bool.false_eq_true, if_false]

/-- Witness for claim C9 (amended) at a fully usable projection set. -/
theorem C9_deterministicWithoutFill_witness :
    needsFill
      { baseline := some { emptyProjection with NetIncome := some 100 }
        optimistic := some { emptyProjection with NetIncome := some 100 }
        realistic := some { emptyProjection with NetIncome := some 100 }
        pessimistic := some { emptyProjection with NetIncome := some 100 }
        discountRate := some (1 / 10) } = false ∧
    calculateScenarioROI
      { baseline := some { emptyProjection with NetIncome := some 100 }
        optimistic := some { emptyProjection with NetIncome := some 100 }
        realistic := some { emptyProjection with NetIncome := some 100 }
        pessimistic := some { emptyProjection with NetIncome := some 100 }
        discountRate := some (1 / 10) } 5 none =
    calculateScenarioROI
      { baseline := some { emptyProjection with NetIncome := some 100 }
        optimistic := some { emptyProjection with NetIncome := some 100 }
        realistic := some { emptyProjection with NetIncome := some 100 }
        pessimistic := some { emptyProjection with NetIncome := some 100 }
        discountRate := some (1 / 10) } 5
      (some { baseline := none, optimistic := none, realistic := none,
              pessimistic := none, discountRate := some (99 / 100) }) := by
  have hw : needsFill
      { baseline := some { emptyProjection with NetIncome := some 100 }
        optimistic := some { emptyProjection with NetIncome := some 100 }
        realistic := some { emptyProjection with NetIncome := some 100 }
        pessimistic := some { emptyProjection with NetIncome := some 100 }
        discountRate := some (1 / 10) } = false := by
    norm_num [needsFill, needProj, jsLeZero, emptyProjection]
  exact ⟨hw, C9_deterministicWithoutFill _ 5 _ _ hw⟩

end ExtraBrain

namespace ExtraBrain

/-- Claim C7: for every projection, horizon of at least two years and
drag percentages, the year-one entry of the built series is the
free-cash-flow base after drag, where the base follows the priority
chain: NetIncome when present and positive, else EBITDA times 0.7 when
present, else 0. -/
theorem C7_fcfBasePriorityChain (projection : Option Projection) (years : Nat)
    (capexPct nwcPct : ℚ) (h : 2 ≤ years) :
    (buildCashflowsFromProjection projection years capexPct nwcPct).getD 1 0 =
      (let base : ℚ :=
        match projection.bind (·.NetIncome) with
        | some q =>
            if 0 < q then q
            else match projection.bind (·.EBITDA) with
                 | some e => e * (7 / 10)
                 | none => 0
        | none =>
            match projection.bind (·.EBITDA) with
            | some e => e * (7 / 10)
            | none => 0
      base + (-|base * capexPct|) + (-|base * nwcPct|)) := by
  obtain ⟨k, rfl⟩ : ∃ k, years = k + 1 + 1 := ⟨years - 2, by omega⟩
  unfold buildCashflowsFromProjection
  dsimp only
  rw [List.range_succ_eq_map, List.range_succ_eq_map]
  simp only [List.map_cons, List.map_map]
  rw [addToLast_getD _ _ 1 (by simp)]
  rw [List.getD_cons_succ, List.getD_cons_zero]
  simp [predragF]

/-- Witness for claim C7 on a projection with a non-positive NetIncome
and a present EBITDA, exercising the fallback link of the chain. -/
theorem C7_fcfBasePriorityChain_witness :
    (2 : Nat) ≤ 3 ∧
    (buildCashflowsFromProjection
      (some { emptyProjection with EBITDA := some 10, NetIncome := some (-3) })
      3 (3 / 100) (1 / 100)).getD 1 0 =
      7 + (-|(7 : ℚ) * (3 / 100)|) + (-|(7 : ℚ) * (1 / 100)|) := by
  refine ⟨by norm_num, ?_⟩
  have h := C7_fcfBasePriorityChain
    (some { emptyProjection with EBITDA := some 10, NetIncome := some (-3) })
    3 (3 / 100) (1 / 100) (by norm_num)
  rw [h]
  norm_num [emptyProjection]

/-- Claim C8 (counterexample): on a projection with growthRate exactly
0 and zero drag percentages, the year-two flow differs from the
year-one flow, refuting zero compounding growth: the falsy zero is
replaced by the 0.03 default. -/
theorem C8_zeroGrowth_counterexample :
    (buildCashflowsFromProjection
      (some { emptyProjection with NetIncome := some 100, growthRate := some 0 })
      3 0 0).getD 2 0 ≠
    (buildCashflowsFromProjection
      (some { emptyProjection with NetIncome := some 100, growthRate := some 0 })
      3 0 0).getD 1 0 := by
  have hf : buildCashflowsFromProjection
      (some { emptyProjection with NetIncome := some 100, growthRate := some 0 })
      3 0 0 = [0, 100, 103, 2450679 / 2500] := by
    norm_num [buildCashflowsFromProjection, emptyProjection, addToLast, predragF_eq,
      show List.range 3 = [0, 1, 2] from rfl]
  rw [hf]
  have h2 : ([0, 100, 103, 2450679 / 2500] : List ℚ).getD 2 0 = 103 := rfl
  have h1 : ([0, 100, 103, 2450679 / 2500] : List ℚ).getD 1 0 = 100 := rfl
  rw [h1, h2]
  norm_num

/-- Claim C8 (amended): a growthRate of exactly 0 is falsy in the
source and is replaced by the 0.03 default, so the built series is the
one of the same projection with growthRate 0.03; the pre-drag flows
compound at three percent instead of staying flat. -/
theorem C8_zeroGrowthDefaulted (p : Projection) (hp : p.growthRate = some 0)
    (years : Nat) (capexPct nwcPct : ℚ) :
    buildCashflowsFromProjection (some p) years capexPct nwcPct =
      buildCashflowsFromProjection (some { p with growthRate := some (3 / 100) })
        years capexPct nwcPct := by
  unfold buildCashflowsFromProjection
  simp only [Option.some_bind, hp]
  norm_num

/-- Witness for claim C8 (amended) at a concrete projection with
growthRate exactly 0. -/
theorem C8_zeroGrowthDefaulted_witness :
    ({ emptyProjection with NetIncome := some 100, growthRate := some 0 }
      : Projection).growthRate = some 0 ∧
    buildCashflowsFromProjection
      (some { emptyProjection with NetIncome := some 100, growthRate := some 0 })
      2 (3 / 100) (1 / 100) =
    buildCashflowsFromProjection
      (some { { emptyProjection with NetIncome := some 100, growthRate := some 0 }
              with growthRate := some (3 / 100) })
      2 (3 / 100) (1 / 100) := by
  exact ⟨rfl, C8_zeroGrowthDefaulted _ rfl 2 _ _⟩

end ExtraBrain

namespace ExtraBrain

/-- Claim C3 (counterexample): on the concrete baseline projection of
the specification the year-one entry of the built series is 96, not
97: 100 minus 3 capex minus 1 nwc is 96. -/
theorem C3_yearOneFlow_counterexample :
    (buildCashflowsFromProjection
      (some { emptyProjection with NetIncome := some 100, initialInvestment := some (-500), growthRate := some (3 / 100), terminalMultiple := some 8 })
      5 (3 / 100) (1 / 100)).getD 1 0 = 96 ∧ (96 : ℚ) ≠ 97 := by
  have hf : buildCashflowsFromProjection
      (some { emptyProjection with NetIncome := some 100, initialInvestment := some (-500), growthRate := some (3 / 100), terminalMultiple := some 8 })
      5 (3 / 100) (1 / 100) =
      [-500, 96, 2472 / 25, 63654 / 625, 3278181 / 31250, 2588670263 / 2500000] := by
    norm_num [buildCashflowsFromProjection, emptyProjection, addToLast, predragF_eq,
      show List.range 5 = [0, 1, 2, 3, 4] from rfl, abs_of_nonneg]
  rw [hf]
  exact ⟨rfl, by norm_num⟩

/-- Claim C3 (amended): on the concrete baseline projection the built
series starts with the -500 initial investment, the year-one entry is
96 (not 97: 100 minus 3 capex minus 1 nwc), the year-five entry is the
dragged fifth flow plus the terminal value of the fifth flow times
1.03 times 8, and the NPV at rate 0.10 agrees with manual discounting
of the yearly flows to within 1e-6. -/
theorem C3_concreteBaselineScenario :
    (buildCashflowsFromProjection
      (some { emptyProjection with NetIncome := some 100, initialInvestment := some (-500), growthRate := some (3 / 100), terminalMultiple := some 8 })
      5 (3 / 100) (1 / 100)).getD 0 0 = -500 ∧
    (buildCashflowsFromProjection
      (some { emptyProjection with NetIncome := some 100, initialInvestment := some (-500), growthRate := some (3 / 100), terminalMultiple := some 8 })
      5 (3 / 100) (1 / 100)).getD 1 0 = 96 ∧
    (buildCashflowsFromProjection
      (some { emptyProjection with NetIncome := some 100, initialInvestment := some (-500), growthRate := some (3 / 100), terminalMultiple := some 8 })
      5 (3 / 100) (1 / 100)).getD 5 0 =
      100 * (103 / 100) ^ 4 * (24 / 25) + 100 * (103 / 100) ^ 4 * (103 / 100) * 8 ∧
    |computeNPV (1 / 10)
      (buildCashflowsFromProjection
        (some { emptyProjection with NetIncome := some 100, initialInvestment := some (-500), growthRate := some (3 / 100), terminalMultiple := some 8 })
        5 (3 / 100) (1 / 100)) -
      (-500 + 100 * (24 / 25) / (11 / 10)
        + 100 * (103 / 100) * (24 / 25) / (11 / 10) ^ 2
        + 100 * (103 / 100) ^ 2 * (24 / 25) / (11 / 10) ^ 3
        + 100 * (103 / 100) ^ 3 * (24 / 25) / (11 / 10) ^ 4
        + (100 * (103 / 100) ^ 4 * (24 / 25)
            + 100 * (103 / 100) ^ 4 * (103 / 100) * 8) / (11 / 10) ^ 5)|
      < 1 / 1000000 := by
  have hf : buildCashflowsFromProjection
      (some { emptyProjection with NetIncome := some 100, initialInvestment := some (-500), growthRate := some (3 / 100), terminalMultiple := some 8 })
      5 (3 / 100) (1 / 100) =
      [-500, 96, 2472 / 25, 63654 / 625, 3278181 / 31250, 2588670263 / 2500000] := by
    norm_num [buildCashflowsFromProjection, emptyProjection, addToLast, predragF_eq,
      show List.range 5 = [0, 1, 2, 3, 4] from rfl, abs_of_nonneg]
  rw [hf]
  refine ⟨rfl, rfl, by norm_num, ?_⟩
  norm_num [computeNPV, List.enum, List.enumFrom]

/-- Claim C6: the sensitivity grid is the full Cartesian product of
the five defaulted sweep lists, with one row per combination and the
rows ordered with the discount rate outermost and the growth rate,
terminal multiple, capex percentage and nwc percentage successively
inner, each list traversed in its supplied order; the row count is the
product of the five list lengths. -/
theorem C6_fullCartesianGrid (baseProjections : Option ROIProjectionSet)
    (horizonYears : Nat) (sweeps : Sweeps) :
    (runSensitivityAnalysis baseProjections horizonYears sweeps).map
        (fun row => (row.discountRate, row.growthRate, row.terminalMultiple,
          row.capexPct, row.nwcPct)) =
      (toList sweeps.discountRate
        (match (baseProjections.getD emptyROIProjectionSet).discountRate with
         | some q => q | none => 1 / 10)).flatMap (fun r =>
      (toList sweeps.growthRate
        (match (((((baseProjections.getD emptyROIProjectionSet).realistic.or
              (baseProjections.getD emptyROIProjectionSet).optimistic).or
              (baseProjections.getD emptyROIProjectionSet).pessimistic).or
              (baseProjections.getD emptyROIProjectionSet).baseline).getD
              emptyProjection).growthRate with
         | some q => q | none => 3 / 100)).flatMap (fun g =>
      (toList sweeps.terminalMultiple
        (match (((((baseProjections.getD emptyROIProjectionSet).realistic.or
              (baseProjections.getD emptyROIProjectionSet).optimistic).or
              (baseProjections.getD emptyROIProjectionSet).pessimistic).or
              (baseProjections.getD emptyROIProjectionSet).baseline).getD
              emptyProjection).terminalMultiple with
         | some q => q | none => 8)).flatMap (fun m =>
      (toList sweeps.capexPct (3 / 100)).flatMap (fun c =>
      (toList sweeps.nwcPct (1 / 100)).map (fun w => (r, g, m, c, w)))))) ∧
    (runSensitivityAnalysis baseProjections horizonYears sweeps).length =
      (toList sweeps.discountRate
        (match (baseProjections.getD emptyROIProjectionSet).discountRate with
         | some q => q | none => 1 / 10)).length *
      ((toList sweeps.growthRate
        (match (((((baseProjections.getD emptyROIProjectionSet).realistic.or
              (baseProjections.getD emptyROIProjectionSet).optimistic).or
              (baseProjections.getD emptyROIProjectionSet).pessimistic).or
              (baseProjections.getD emptyROIProjectionSet).baseline).getD
              emptyProjection).growthRate with
         | some q => q | none => 3 / 100)).length *
      ((toList sweeps.terminalMultiple
        (match (((((baseProjections.getD emptyROIProjectionSet).realistic.or
              (baseProjections.getD emptyROIProjectionSet).optimistic).or
              (baseProjections.getD emptyROIProjectionSet).pessimistic).or
              (baseProjections.getD emptyROIProjectionSet).baseline).getD
              emptyProjection).terminalMultiple with
         | some q => q | none => 8)).length *
      ((toList sweeps.capexPct (3 / 100)).length *
        (toList sweeps.nwcPct (1 / 100)).length))) := by
  constructor
  · simp [runSensitivityAnalysis, List.map_flatMap, List.map_map, Function.comp_def]
  · simp [runSensitivityAnalysis, List.length_flatMap, Function.comp_def,
      List.length_map, sum_map_constNat]

end ExtraBrain
